import Mathlib

/-!
Shallow embedding of the fan53555 / RK860 buck-regulator driver
(`drivers/power/regulator/fan53555.c` of this U-Boot tree) and proofs about
its variant resolver, voltage codec, device-tree config resolution,
calibration sequencer and probe logic.

Machine integers are modelled as `Nat`/`Int` with explicit reductions
(`% 2^32` for C `unsigned int` arithmetic, `% 256` for `u8` truncation)
exactly where the C code performs an implicit conversion.  Register-level
I/O (`dm_i2c_addr_read` / `dm_i2c_addr_write`) is modelled by an explicit
environment of read outcomes plus an event trace of the reads and writes
issued; `pmic_reg_read` calls that only feed debug `printf` output are not
part of the trace (they carry no state and no control flow).
-/

/-! ## Constants from the source and its headers -/

/-- Register offsets, from the `enum` in the driver: VSEL0 = 0x00. -/
def FAN53555_VSEL0 : Nat := 0x00

/-- VSEL1 = 0x01. -/
def FAN53555_VSEL1 : Nat := 0x01

/-- ID1 register offset (IC type), 0x03. -/
def FAN53555_ID1 : Nat := 0x03

/-- ID2 register offset (IC mask version), 0x04. -/
def FAN53555_ID2 : Nat := 0x04

/-- Vendor enumerant from `include/power/fan53555.h` (first enumerant). -/
def FAN53555_VENDOR_FAIRCHILD : Nat := 0

/-- Vendor enumerant from `include/power/fan53555.h` (second enumerant). -/
def FAN53555_VENDOR_SILERGY : Nat := 1

/-- Linux/U-Boot errno value for EINVAL. -/
def EINVAL : Int := 22

/-- Linux/U-Boot errno value for ENODATA. -/
def ENODATA : Int := 61

/-- Calibration topology flag `IS_RK860_0_ONLY` (primary only). -/
def IS_RK860_0_ONLY : Nat := 1

/-- Calibration topology flag `IS_RK860_1_ONLY` (secondary only). -/
def IS_RK860_1_ONLY : Nat := 2

/-- Calibration topology flag `IS_RK860_0_1` (both). -/
def IS_RK860_0_1 : Nat := 3

/-! ## Variant table and resolver (`ic_types`, `fan53555_voltages_setup`) -/

/-- One row of the static `ic_types[]` table. -/
structure ICTypeEntry where
  vendor : Nat
  die_id : Nat
  die_rev : Nat
  check_rev : Bool
  vsel_min : Nat
  vsel_step : Nat
deriving DecidableEq, Repr

/-- The static `ic_types[]` table, in declaration order. -/
def ic_types : List ICTypeEntry :=
  [ ⟨FAN53555_VENDOR_FAIRCHILD, 0x0, 0x3, true,  600000, 10000⟩,
    ⟨FAN53555_VENDOR_FAIRCHILD, 0x0, 0xf, true,  800000, 10000⟩,
    ⟨FAN53555_VENDOR_FAIRCHILD, 0x0, 0xc, true,  600000, 12500⟩,
    ⟨FAN53555_VENDOR_FAIRCHILD, 0x1, 0x3, true,  600000, 10000⟩,
    ⟨FAN53555_VENDOR_FAIRCHILD, 0x3, 0x3, true,  600000, 10000⟩,
    ⟨FAN53555_VENDOR_FAIRCHILD, 0x4, 0xf, true,  603000, 12826⟩,
    ⟨FAN53555_VENDOR_FAIRCHILD, 0x5, 0x3, true,  600000, 10000⟩,
    ⟨FAN53555_VENDOR_FAIRCHILD, 0x8, 0x1, true,  600000, 10000⟩,
    ⟨FAN53555_VENDOR_FAIRCHILD, 0x8, 0xf, true,  600000, 10000⟩,
    ⟨FAN53555_VENDOR_FAIRCHILD, 0xc, 0xf, true,  603000, 12826⟩,
    ⟨FAN53555_VENDOR_SILERGY,   0x8, 0x0, false, 712500, 12500⟩,
    ⟨FAN53555_VENDOR_SILERGY,   0x9, 0x0, false, 712500, 12500⟩ ]

/-- The scan loop of `fan53555_voltages_setup`: walk the table in order,
`continue` past entries whose vendor or die id differ, or whose die rev
differs while `check_rev` is set; return the first surviving entry's
`(vsel_min, vsel_step)`. -/
def voltages_lookup : List ICTypeEntry → Nat → Nat → Nat → Option (Nat × Nat)
  | [], _, _, _ => none
  | e :: rest, vendor, die_id, die_rev =>
    if e.vendor ≠ vendor then voltages_lookup rest vendor die_id die_rev
    else if e.die_id ≠ die_id then voltages_lookup rest vendor die_id die_rev
    else if e.check_rev ∧ e.die_rev ≠ die_rev then
      voltages_lookup rest vendor die_id die_rev
    else some (e.vsel_min, e.vsel_step)

/-- `fan53555_voltages_setup`: resolve `(vendor, die_id, die_rev)` against the
static table; `none` models the `-EINVAL` "die id not supported" failure. -/
def fan53555_voltages_setup (vendor die_id die_rev : Nat) : Option (Nat × Nat) :=
  voltages_lookup ic_types vendor die_id die_rev

/-! ## Voltage codec (`fan53555_regulator_get_value`, `fan53555_regulator_set_value`) -/

/-- C conversion of a signed value to `unsigned int` (reduce mod 2^32). -/
def c_uint (x : Int) : Nat := (Int.emod x (2 ^ 32)).toNat

/-- The decode step of `fan53555_regulator_get_value`:
`voltage = priv->vsel_min + (reg & 0x3f) * priv->vsel_step`. -/
def fan53555_decode (vsel_min vsel_step reg : Nat) : Nat :=
  vsel_min + (reg &&& 0x3f) * vsel_step

/-- The encode step of `fan53555_regulator_set_value`:
`vol = (uV - priv->vsel_min) / priv->vsel_step` where `uV` is a C `int`,
`vsel_min`/`vsel_step` are `unsigned int` and `vol` is a `u8`.  By the C
usual arithmetic conversions the subtraction and division happen in
unsigned 32-bit arithmetic, and the assignment truncates to 8 bits. -/
def fan53555_encode (vsel_min vsel_step : Nat) (uV : Int) : Nat :=
  c_uint (uV - (vsel_min : Int)) / vsel_step % 256

/-- Modelled from the spec: the read-modify-write helper `pmic_clrsetbits`
(U-Boot core code, outside `src/`): read the register, clear the `clr` bits
(`& ~clr` in 32-bit arithmetic), OR in `set`, and write back the resulting
byte (`u8` truncation). -/
def pmic_clrsetbits (regOld clr set : Nat) : Nat :=
  ((regOld &&& ((2 ^ 32 - 1) ^^^ clr)) ||| set) % 256

/-- `fan53555_regulator_set_value` as a function on the current value of the
active voltage register: encode `uV`, then
`pmic_clrsetbits(parent, vol_reg, GENMASK(6, 0), vol)`.  `GENMASK(6,0) = 0x7f`. -/
def fan53555_set_value_reg (vsel_min vsel_step : Nat) (uV : Int) (reg0 : Nat) : Nat :=
  pmic_clrsetbits reg0 0x7f (fan53555_encode vsel_min vsel_step uV)

/-! ## Device-tree config resolution (`fan53555_regulator_of_to_plat`) -/

/-- `fan53555_regulator_of_to_plat`, as a function of the optional
device-tree value of `"fcs,suspend-voltage-selector"` (`none` = property
absent).  `dev_read_u32_default` supplies `FAN53555_VSEL1` when absent; the
switch then assigns `(sleep_reg, vol_reg)` or fails with `-EINVAL`. -/
def fan53555_regulator_of_to_plat (sleep_vsel_dt : Option Nat) : Except Int (Nat × Nat) :=
  let sleep_vsel := sleep_vsel_dt.getD FAN53555_VSEL1
  if sleep_vsel = FAN53555_VSEL0 then
    Except.ok (FAN53555_VSEL0, FAN53555_VSEL1)
  else if sleep_vsel = FAN53555_VSEL1 then
    Except.ok (FAN53555_VSEL1, FAN53555_VSEL0)
  else
    Except.error (-EINVAL)

/-! ## Calibration sequencer (`fan53555_rk860_calibration`) -/

/-- Outcome environment for the byte transport `dm_i2c_addr_read`:
`readOk a o` tells whether the 1-byte read at chip address `a`, register
offset `o` succeeds (`ret ≥ 0`), and `readVal a o` the byte it yields.
For a failed read whose return value the C code ignores (the trim-byte
reads of the dispatch arms), the buffer holds an unspecified byte; we model
that byte as `readVal a o` as well — an arbitrary function of the address,
which loses no generality. -/
structure I2CEnv where
  readOk : Nat → Nat → Bool
  readVal : Nat → Nat → Nat

/-- One transport event: a 1-byte `dm_i2c_addr_read` or `dm_i2c_addr_write`
at (chip address, register offset), writes carrying the byte written. -/
inductive IOEvent where
  | read : Nat → Nat → IOEvent
  | write : Nat → Nat → Nat → IOEvent
deriving DecidableEq, Repr

/-- Lines 339–370 of the driver: probe 0x40/0x0E then 0x41/0x0E and fold the
results into `(rk860_type, version0, version1, flag)`.  Initial values:
`rk860_type = 0`, `version0 = version1 = 0x04`, `flag = 0`. -/
def rk860_classify (env : I2CEnv) : Nat × Nat × Nat × Nat :=
  let p0 :=
    if env.readOk 0x40 0x0e then
      let value := env.readVal 0x40 0x0e
      if value = 0x00 ∨ value = 0x04 then (IS_RK860_0_ONLY, value &&& 0x04, (0 : Nat))
      else ((0 : Nat), (0x04 : Nat), (1 : Nat))
    else ((0 : Nat), (0x04 : Nat), (0 : Nat))
  match p0 with
  | (rk_a, version0, flag_a) =>
    let p1 :=
      if env.readOk 0x41 0x0e then
        let value := env.readVal 0x41 0x0e
        if value = 0x44 ∨ value = 0x40 then
          ((if rk_a ≠ 0 then IS_RK860_0_1 else IS_RK860_1_ONLY), value &&& 0x04, flag_a)
        else (rk_a, (0x04 : Nat), (2 : Nat))
      else (rk_a, (0x04 : Nat), flag_a)
    match p1 with
    | (rk, version1, flag) => (rk, version0, version1, flag)

/-- The trace of the `IS_RK860_0_ONLY` dispatch arm when `version0 = 0`:
read P's trim bytes 0x0B–0x0D, write unlock 0x5A to 0x40/0x0A, marker 0x04
to 0x40/0x0E, rewrite the trim bytes. -/
def rk860_primary_only_body (env : I2CEnv) : List IOEvent :=
  [IOEvent.read 0x40 0x0b, IOEvent.read 0x40 0x0c, IOEvent.read 0x40 0x0d,
   IOEvent.write 0x40 0x0a 0x5a,
   IOEvent.write 0x40 0x0e 0x04,
   IOEvent.write 0x40 0x0b (env.readVal 0x40 0x0b),
   IOEvent.write 0x40 0x0c (env.readVal 0x40 0x0c),
   IOEvent.write 0x40 0x0d (env.readVal 0x40 0x0d)]

/-- The trace of the `IS_RK860_1_ONLY` dispatch arm when `version1 = 0`:
read S's trim bytes 0x0B–0x0D, write unlock 0x5A to 0x41/0x0A, marker 0x44
to 0x40/0x0E (the driver writes the 0x44 marker to chip address 0x40, line
412), rewrite S's trim bytes. -/
def rk860_secondary_only_body (env : I2CEnv) : List IOEvent :=
  [IOEvent.read 0x41 0x0b, IOEvent.read 0x41 0x0c, IOEvent.read 0x41 0x0d,
   IOEvent.write 0x41 0x0a 0x5a,
   IOEvent.write 0x40 0x0e 0x44,
   IOEvent.write 0x41 0x0b (env.readVal 0x41 0x0b),
   IOEvent.write 0x41 0x0c (env.readVal 0x41 0x0c),
   IOEvent.write 0x41 0x0d (env.readVal 0x41 0x0d)]

/-- The trace of the `IS_RK860_0_1` dispatch arm when `version0 = 0` or
`version1 = 0`: read both chips' trim bytes, then P unlock, 0x84 to
0x40/0x0E, S unlock, 0x44 to 0x40/0x0E (line 443 writes address 0x40),
S trim rewrite, 0x04 to 0x42/0x0E, P trim rewrite. -/
def rk860_both_body (env : I2CEnv) : List IOEvent :=
  [IOEvent.read 0x40 0x0b, IOEvent.read 0x40 0x0c, IOEvent.read 0x40 0x0d,
   IOEvent.read 0x41 0x0b, IOEvent.read 0x41 0x0c, IOEvent.read 0x41 0x0d,
   IOEvent.write 0x40 0x0a 0x5a,
   IOEvent.write 0x40 0x0e 0x84,
   IOEvent.write 0x41 0x0a 0x5a,
   IOEvent.write 0x40 0x0e 0x44,
   IOEvent.write 0x41 0x0b (env.readVal 0x41 0x0b),
   IOEvent.write 0x41 0x0c (env.readVal 0x41 0x0c),
   IOEvent.write 0x41 0x0d (env.readVal 0x41 0x0d),
   IOEvent.write 0x42 0x0e 0x04,
   IOEvent.write 0x40 0x0b (env.readVal 0x40 0x0b),
   IOEvent.write 0x40 0x0c (env.readVal 0x40 0x0c),
   IOEvent.write 0x40 0x0d (env.readVal 0x40 0x0d)]

/-- `fan53555_rk860_calibration`: classification (lines 339–370), the
mismatched-pairing guard (line 372: `flag == 1 && rk860_type ==
IS_RK860_1_ONLY && version1 == 0` returns before any write), then the
`switch (di->rk860_type)` dispatch.  Result: the stored `di->rk860_type`
and the transport trace (the two probe reads followed by the dispatch
arm's events). -/
def fan53555_rk860_calibration (env : I2CEnv) : Nat × List IOEvent :=
  match rk860_classify env with
  | (rk, version0, version1, flag) =>
    let probes : List IOEvent := [IOEvent.read 0x40 0x0e, IOEvent.read 0x41 0x0e]
    if flag = 1 ∧ rk = IS_RK860_1_ONLY ∧ version1 = 0 then
      (rk, probes)
    else
      let body : List IOEvent :=
        if rk = IS_RK860_0_ONLY then
          if version0 = 0 then rk860_primary_only_body env else []
        else if rk = IS_RK860_1_ONLY then
          if version1 = 0 then rk860_secondary_only_body env else []
        else if rk = IS_RK860_0_1 then
          if version0 = 0 ∨ version1 = 0 then rk860_both_body env else []
        else []
      (rk, probes ++ body)

/-! ## Probe (`fan53555_probe`) -/

/-- Environment of `fan53555_probe`: the parent PMIC register reads
(`pmic_reg_read`, negative result = transport error), the per-address byte
transport used by calibration, and the `driver_data` vendor enumerant. -/
structure ProbeEnv where
  pmicRead : Nat → Int
  i2c : I2CEnv
  driver_data : Nat

/-- `fan53555_probe`: read ID1 then ID2 (each failure returned unchanged),
extract `die_id`/`die_rev` as the low nibbles, resolve the variant
(failure becomes `-ENODATA`), run the calibration sequencer when the
vendor is `FAN53555_VENDOR_SILERGY`, and return 0.  The result pairs the
return value with the calibration transport trace (empty when calibration
did not run). -/
def fan53555_probe (env : ProbeEnv) : Int × List IOEvent :=
  let ID1 := env.pmicRead FAN53555_ID1
  if ID1 < 0 then (ID1, [])
  else
    let ID2 := env.pmicRead FAN53555_ID2
    if ID2 < 0 then (ID2, [])
    else
      let die_id := ID1.toNat &&& 0xf
      let die_rev := ID2.toNat &&& 0xf
      match fan53555_voltages_setup env.driver_data die_id die_rev with
      | none => (-ENODATA, [])
      | some _ =>
        if env.driver_data = FAN53555_VENDOR_SILERGY then
          (0, (fan53555_rk860_calibration env.i2c).2)
        else (0, [])

/-! ## Theorems -/

/-- The matching rule of the claim, as a predicate on one table entry:
vendor and die id always match; die rev only when `check_rev` is set. -/
def variantMatches (vendor die_id die_rev : Nat) (e : ICTypeEntry) : Bool :=
  decide (e.vendor = vendor) && decide (e.die_id = die_id) &&
    (!e.check_rev || decide (e.die_rev = die_rev))

/-- The scan loop returns the first entry satisfying `variantMatches`. -/
theorem voltages_lookup_eq_find (vendor die_id die_rev : Nat) :
    ∀ l : List ICTypeEntry,
      voltages_lookup l vendor die_id die_rev =
        (l.find? (variantMatches vendor die_id die_rev)).map
          (fun e => (e.vsel_min, e.vsel_step))
  | [] => rfl
  | e :: rest => by
    have ih := voltages_lookup_eq_find vendor die_id die_rev rest
    by_cases h1 : e.vendor = vendor <;> by_cases h2 : e.die_id = die_id <;>
      by_cases h3 : e.check_rev = true <;> by_cases h4 : e.die_rev = die_rev <;>
      simp [voltages_lookup, List.find?, variantMatches, h1, h2, h3, h4, ih]

/-- C7: `fan53555_voltages_setup` scans `ic_types` in declaration order and
returns the `(vsel_min, vsel_step)` curve of the first entry whose vendor
and die id match and whose die rev also matches when that entry's
`check_rev` flag is set; it fails (NotFound) exactly when no entry
matches. -/
theorem C7_resolver_first_match (vendor die_id die_rev : Nat) :
    fan53555_voltages_setup vendor die_id die_rev =
      (ic_types.find? (variantMatches vendor die_id die_rev)).map
        (fun e => (e.vsel_min, e.vsel_step)) ∧
    (fan53555_voltages_setup vendor die_id die_rev = none ↔
      ∀ e ∈ ic_types, ¬ variantMatches vendor die_id die_rev e = true) := by
  refine ⟨voltages_lookup_eq_find vendor die_id die_rev ic_types, ?_⟩
  rw [fan53555_voltages_setup, voltages_lookup_eq_find vendor die_id die_rev ic_types]
  simp [List.find?_eq_none]

/-- C8: `fan53555_decode` only depends on the low 6 bits of the raw
register value (any multiple of 64 added to the register leaves the result
unchanged), it equals `vsel_min + (reg % 64) * vsel_step`, and in
particular raw value 0xFF decodes exactly as 0x3F does: with floor 600000
and step 10000 both give 1230000. -/
theorem C8_decode_mask (vsel_min vsel_step reg k : Nat) :
    fan53555_decode vsel_min vsel_step (reg + 64 * k) =
      fan53555_decode vsel_min vsel_step reg ∧
    fan53555_decode vsel_min vsel_step reg = vsel_min + (reg % 64) * vsel_step ∧
    fan53555_decode 600000 10000 0xff = fan53555_decode 600000 10000 0x3f ∧
    fan53555_decode 600000 10000 0xff = 1230000 := by
  have hmask : ∀ n : Nat, n &&& 0x3f = n % 64 := fun n =>
    Nat.and_pow_two_sub_one_eq_mod n 6
  have h64 : (reg + 64 * k) % 64 = reg % 64 := by omega
  refine ⟨?_, ?_, by decide, by decide⟩
  · simp [fan53555_decode, hmask, h64]
  · simp [fan53555_decode, hmask]

/-- The encode rule exactly as the claim states it: `(microvolts - floor)
divided by step, integer division truncating toward zero`, the result
passed through unchanged (no clamping, no truncation). -/
def encode_claim_spec (vsel_min vsel_step : Nat) (uV : Int) : Int :=
  Int.tdiv (uV - (vsel_min : Int)) (vsel_step : Int)

/-- C3 fails as stated: for microvolts below the floor the C code does not
produce the toward-zero quotient.  With floor 600000, step 10000 and input
590000 the claim's rule gives -1, but the driver computes in unsigned
32-bit arithmetic and truncates the quotient to a `u8`, producing 183
(not -1, and not even the two's-complement byte 255). -/
theorem C3_counterexample :
    fan53555_encode 600000 10000 590000 = 183 ∧
    encode_claim_spec 600000 10000 590000 = -1 ∧
    (fan53555_encode 600000 10000 590000 : Int) ≠
      encode_claim_spec 600000 10000 590000 ∧
    fan53555_encode 600000 10000 590000 ≠ 255 := by
  decide

/-- C3 (amended): the encode step computes `((uV - floor) mod 2^32) / step`
in unsigned arithmetic and truncates the quotient to 8 bits, with no
bounds clamping; whenever `uV` is at or above the floor (with the
difference inside 32 bits) and the quotient fits a byte — in particular
for every quotient in 64..255, which exceeds the chip's 6-bit range — the
quotient equals the truncating division and reaches the register write
unchanged. -/
theorem C3_encode_amended (vsel_min vsel_step : Nat) (uV : Int)
    (h1 : (vsel_min : Int) ≤ uV) (h2 : uV - (vsel_min : Int) < 2 ^ 32)
    (h3 : (uV - (vsel_min : Int)).toNat / vsel_step < 256) :
    (fan53555_encode vsel_min vsel_step uV : Int) =
      Int.tdiv (uV - (vsel_min : Int)) (vsel_step : Int) := by
  have hd : (0 : Int) ≤ uV - (vsel_min : Int) := by omega
  have he : Int.emod (uV - (vsel_min : Int)) (2 ^ 32) = uV - (vsel_min : Int) :=
    Int.emod_eq_of_lt hd h2
  unfold fan53555_encode c_uint
  rw [he, Nat.mod_eq_of_lt h3, Int.ofNat_tdiv, Int.toNat_of_nonneg hd]

/-- Witness for C3 (amended) at floor 600000, step 10000, uV 760000. -/
theorem C3_encode_amended_witness :
    ((600000 : Int) ≤ 760000 ∧ (760000 : Int) - 600000 < 2 ^ 32 ∧
      ((760000 : Int) - 600000).toNat / 10000 < 256) ∧
    (fan53555_encode 600000 10000 760000 : Int) =
      Int.tdiv ((760000 : Int) - 600000) 10000 :=
  ⟨⟨by decide, by decide, by decide⟩,
    C3_encode_amended 600000 10000 760000 (by decide) (by decide) (by decide)⟩

/-- C9 fails as stated: when the encoded value itself has bit 7 set (an
out-of-range request, which C3's no-clamping behavior lets through), the
OR sets bit 7 of the register.  Floor 600000, step 10000, uV 1880000
encodes to 0x80; with initial register value 0x00 the post-write value is
0x80, so bit 7 changed. -/
theorem C9_counterexample :
    fan53555_encode 600000 10000 1880000 = 0x80 ∧
    fan53555_set_value_reg 600000 10000 1880000 0x00 = 0x80 ∧
    fan53555_set_value_reg 600000 10000 1880000 0x00 &&& 0x80 ≠ 0x00 &&& 0x80 := by
  decide

set_option maxRecDepth 100000 in
/-- Byte-level frame property of the read-modify-write with mask 0x7F. -/
theorem clrset_byte_frame :
    ∀ r < 256, ∀ v < 128,
      pmic_clrsetbits r 0x7f v &&& 0x80 = r &&& 0x80 ∧
      pmic_clrsetbits r 0x7f v &&& 0x7f = v := by
  decide

/-- C9 (amended): the set path is a read-modify-write that clears mask 0x7F
and ORs in the encoded value; provided the encoded value fits in bits 0–6
(below 0x80), for every initial byte value of the register bit 7 is left
unchanged and the low 7 bits become exactly the encoded value; the claim's
concrete instance holds: initial value 0x80 with a voltage encoding to
0x10 yields 0x90. -/
theorem C9_set_value_frame (vsel_min vsel_step : Nat) (uV : Int) (reg0 : Nat)
    (hreg : reg0 < 256) (henc : fan53555_encode vsel_min vsel_step uV < 128) :
    fan53555_set_value_reg vsel_min vsel_step uV reg0 &&& 0x80 = reg0 &&& 0x80 ∧
    fan53555_set_value_reg vsel_min vsel_step uV reg0 &&& 0x7f =
      fan53555_encode vsel_min vsel_step uV ∧
    fan53555_set_value_reg 600000 10000 760000 0x80 = 0x90 := by
  have h := clrset_byte_frame reg0 hreg (fan53555_encode vsel_min vsel_step uV) henc
  exact ⟨h.1, h.2, by decide⟩

/-- Witness for C9 (amended) at the claim's own instance: initial register
value 0x80, voltage 760000 (floor 600000, step 10000, encoding 0x10). -/
theorem C9_set_value_frame_witness :
    ((0x80 : Nat) < 256 ∧ fan53555_encode 600000 10000 760000 < 128) ∧
    (fan53555_set_value_reg 600000 10000 760000 0x80 &&& 0x80 = 0x80 &&& 0x80 ∧
     fan53555_set_value_reg 600000 10000 760000 0x80 &&& 0x7f =
       fan53555_encode 600000 10000 760000 ∧
     fan53555_set_value_reg 600000 10000 760000 0x80 = 0x90) :=
  ⟨⟨by decide, by decide⟩,
    C9_set_value_frame 600000 10000 760000 0x80 (by decide) (by decide)⟩

/-- C10: an absent `"fcs,suspend-voltage-selector"` property is not an
error: it defaults the sleep register to VSEL1 and the active register to
VSEL0; `-EINVAL` occurs exactly for an explicitly present selector naming
neither VSEL0 nor VSEL1; and every successful outcome assigns the two
distinct registers VSEL0 and VSEL1 (in one of the two orders). -/
theorem C10_of_to_plat :
    fan53555_regulator_of_to_plat none =
      Except.ok (FAN53555_VSEL1, FAN53555_VSEL0) ∧
    (∀ v, fan53555_regulator_of_to_plat (some v) = Except.error (-EINVAL) ↔
      (v ≠ FAN53555_VSEL0 ∧ v ≠ FAN53555_VSEL1)) ∧
    (∀ o p, fan53555_regulator_of_to_plat o = Except.ok p →
      p = (FAN53555_VSEL0, FAN53555_VSEL1) ∨
        p = (FAN53555_VSEL1, FAN53555_VSEL0)) := by
  refine ⟨rfl, fun v => ?_, fun o p h => ?_⟩
  · unfold fan53555_regulator_of_to_plat
    by_cases h0 : v = FAN53555_VSEL0
    · simp [h0, FAN53555_VSEL0, FAN53555_VSEL1]
    · by_cases h1 : v = FAN53555_VSEL1
      · simp [h0, h1, FAN53555_VSEL0, FAN53555_VSEL1]
      · simp [h0, h1]
  · unfold fan53555_regulator_of_to_plat at h
    dsimp only at h
    split_ifs at h
    · exact Or.inl (Except.ok.inj h).symm
    · exact Or.inr (Except.ok.inj h).symm

/-- Witness for C10 at the absent-property input. -/
theorem C10_of_to_plat_witness :
    (FAN53555_VSEL1, FAN53555_VSEL0) = (FAN53555_VSEL0, FAN53555_VSEL1) ∨
      (FAN53555_VSEL1, FAN53555_VSEL0) = (FAN53555_VSEL1, FAN53555_VSEL0) :=
  C10_of_to_plat.2.2 none (FAN53555_VSEL1, FAN53555_VSEL0) rfl

/-- The claim's "P is genuine": the identification read at 0x40/0x0E
succeeded with value 0x00 or 0x04. -/
abbrev primaryGenuine (env : I2CEnv) : Prop :=
  env.readOk 0x40 0x0e = true ∧
    (env.readVal 0x40 0x0e = 0x00 ∨ env.readVal 0x40 0x0e = 0x04)

/-- The claim's "S is genuine": the identification read at 0x41/0x0E
succeeded with value 0x44 or 0x40. -/
abbrev secondaryGenuine (env : I2CEnv) : Prop :=
  env.readOk 0x41 0x0e = true ∧
    (env.readVal 0x41 0x0e = 0x44 ∨ env.readVal 0x41 0x0e = 0x40)

/-- The claim's "P mismatched": present (read succeeded) but with an
unrecognized identification value. -/
abbrev primaryMismatched (env : I2CEnv) : Prop :=
  env.readOk 0x40 0x0e = true ∧
    ¬(env.readVal 0x40 0x0e = 0x00 ∨ env.readVal 0x40 0x0e = 0x04)

/-- S present but with an unrecognized identification value. -/
abbrev secondaryMismatched (env : I2CEnv) : Prop :=
  env.readOk 0x41 0x0e = true ∧
    ¬(env.readVal 0x41 0x0e = 0x44 ∨ env.readVal 0x41 0x0e = 0x40)

/-- C4: the calibration classification satisfies: topologyKind is
PrimaryOnly iff only P is genuine, SecondaryOnly iff only S is genuine,
Both iff both are genuine, None (0) otherwise; a failed or mismatched P
read is absorbed (never fatal); versionP is `value & 0x04` when P is
genuine (its 0x04 default otherwise), versionS likewise; and the soft
mismatch flag records S-mismatch (2) over P-mismatch (1) over none (0). -/
theorem C4_classification (env : I2CEnv) :
    ((rk860_classify env).1 = IS_RK860_0_ONLY ↔
      primaryGenuine env ∧ ¬ secondaryGenuine env) ∧
    ((rk860_classify env).1 = IS_RK860_1_ONLY ↔
      ¬ primaryGenuine env ∧ secondaryGenuine env) ∧
    ((rk860_classify env).1 = IS_RK860_0_1 ↔
      primaryGenuine env ∧ secondaryGenuine env) ∧
    ((rk860_classify env).1 = 0 ↔
      ¬ primaryGenuine env ∧ ¬ secondaryGenuine env) ∧
    (rk860_classify env).2.1 =
      (if primaryGenuine env then env.readVal 0x40 0x0e &&& 0x04 else 0x04) ∧
    (rk860_classify env).2.2.1 =
      (if secondaryGenuine env then env.readVal 0x41 0x0e &&& 0x04 else 0x04) ∧
    (rk860_classify env).2.2.2 =
      (if secondaryMismatched env then 2
       else if primaryMismatched env then 1 else 0) := by
  unfold rk860_classify
  by_cases hP : env.readOk 0x40 0x0e = true <;>
    by_cases hS : env.readOk 0x41 0x0e = true <;>
    by_cases hvP : env.readVal 0x40 0x0e = 0x00 ∨ env.readVal 0x40 0x0e = 0x04 <;>
    by_cases hvS : env.readVal 0x41 0x0e = 0x44 ∨ env.readVal 0x41 0x0e = 0x40 <;>
    simp [hP, hS, hvP, hvS, IS_RK860_0_ONLY, IS_RK860_1_ONLY, IS_RK860_0_1,
      primaryGenuine, secondaryGenuine, primaryMismatched, secondaryMismatched]

/-- C5: when P is present but mismatched (guard flag 1), the topology
resolved to SecondaryOnly and S carries the legacy version (read value
0x40, so `versionS = 0`), the sequencer aborts before its dispatch: the
transport trace is exactly the two identification reads, with no register
write at all. -/
theorem C5_guard_aborts (env : I2CEnv)
    (hP : env.readOk 0x40 0x0e = true)
    (hvP : ¬(env.readVal 0x40 0x0e = 0x00 ∨ env.readVal 0x40 0x0e = 0x04))
    (hS : env.readOk 0x41 0x0e = true)
    (hvS : env.readVal 0x41 0x0e = 0x40) :
    fan53555_rk860_calibration env =
      (IS_RK860_1_ONLY, [IOEvent.read 0x40 0x0e, IOEvent.read 0x41 0x0e]) := by
  have hand : (0x40 : Nat) &&& 0x04 = 0 := rfl
  have hcls : rk860_classify env = (IS_RK860_1_ONLY, 0x04, 0, 1) := by
    simp [rk860_classify, hP, hS, hvP, hvS, hand, IS_RK860_1_ONLY]
  simp [fan53555_rk860_calibration, hcls, IS_RK860_1_ONLY]

/-- Transport environment for the guard scenario of the claim: every read
succeeds, P's identification register reads 0x10 (unrecognized), S's reads
0x40 (genuine, legacy). -/
def envC5 : I2CEnv where
  readOk := fun _ _ => true
  readVal := fun a o =>
    if a = 0x40 ∧ o = 0x0e then 0x10
    else if a = 0x41 ∧ o = 0x0e then 0x40
    else 0

/-- Witness for C5 at the spec's own example (P reads 0x10, S reads 0x40). -/
theorem C5_guard_aborts_witness :
    (envC5.readOk 0x40 0x0e = true ∧
      ¬(envC5.readVal 0x40 0x0e = 0x00 ∨ envC5.readVal 0x40 0x0e = 0x04) ∧
      envC5.readOk 0x41 0x0e = true ∧ envC5.readVal 0x41 0x0e = 0x40) ∧
    fan53555_rk860_calibration envC5 =
      (IS_RK860_1_ONLY, [IOEvent.read 0x40 0x0e, IOEvent.read 0x41 0x0e]) :=
  ⟨⟨rfl, by decide, rfl, rfl⟩, C5_guard_aborts envC5 rfl (by decide) rfl rfl⟩

/-- Transport environment for the SecondaryOnly legacy path: the P
identification read fails, every other read succeeds; S identifies as
0x40 (genuine, legacy) and S's trim bytes read 0x11, 0x22, 0x33. -/
def envC1 : I2CEnv where
  readOk := fun a o => !(a == 0x40 && o == 0x0e)
  readVal := fun a o =>
    if a = 0x41 ∧ o = 0x0e then 0x40
    else if o = 0x0b then 0x11
    else if o = 0x0c then 0x22
    else if o = 0x0d then 0x33
    else 0

/-- C1 fails as stated: in the SecondaryOnly legacy path the driver never
writes 0x44 to S's own version register (0x41, offset 0x0E); the only
marker write of the path is the single 0x44 to P's version register
(0x40, offset 0x0E), even though P is absent.  Concretely, with P absent
and S reading 0x40, the path runs (unlock 0x5A is written to 0x41/0x0A)
yet no write to 0x41/0x0E occurs. -/
theorem C1_counterexample :
    (fan53555_rk860_calibration envC1).1 = IS_RK860_1_ONLY ∧
    IOEvent.write 0x41 0x0a 0x5a ∈ (fan53555_rk860_calibration envC1).2 ∧
    IOEvent.write 0x41 0x0e 0x44 ∉ (fan53555_rk860_calibration envC1).2 ∧
    IOEvent.write 0x40 0x0e 0x44 ∈ (fan53555_rk860_calibration envC1).2 := by
  decide

/-- C1 (amended): in the SecondaryOnly legacy calibration path (P's
identification read failed, S identified with legacy value 0x40), the
sequencer reads S's three trim bytes (0x41, offsets 0x0B–0x0D), writes
unlock key 0x5A to S's unlock register (0x41/0x0A), issues exactly one
version-marker write — 0x44 to P's version register (0x40, offset 0x0E),
a cross-write to the absent chip, with no write to S's own version
register — and then rewrites the three trim bytes back to S's offsets
0x0B–0x0D. -/
theorem C1_secondary_only_amended (env : I2CEnv)
    (hP : env.readOk 0x40 0x0e = false)
    (hS : env.readOk 0x41 0x0e = true)
    (hvS : env.readVal 0x41 0x0e = 0x40) :
    fan53555_rk860_calibration env =
      (IS_RK860_1_ONLY,
       [IOEvent.read 0x40 0x0e, IOEvent.read 0x41 0x0e,
        IOEvent.read 0x41 0x0b, IOEvent.read 0x41 0x0c, IOEvent.read 0x41 0x0d,
        IOEvent.write 0x41 0x0a 0x5a,
        IOEvent.write 0x40 0x0e 0x44,
        IOEvent.write 0x41 0x0b (env.readVal 0x41 0x0b),
        IOEvent.write 0x41 0x0c (env.readVal 0x41 0x0c),
        IOEvent.write 0x41 0x0d (env.readVal 0x41 0x0d)]) := by
  have hand : (0x40 : Nat) &&& 0x04 = 0 := rfl
  have hcls : rk860_classify env = (IS_RK860_1_ONLY, 0x04, 0, 0) := by
    simp [rk860_classify, hP, hS, hvS, hand, IS_RK860_1_ONLY]
  simp [fan53555_rk860_calibration, hcls, rk860_secondary_only_body,
    IS_RK860_1_ONLY, IS_RK860_0_ONLY]

/-- Witness for C1 (amended) at `envC1`: the trim bytes 0x11, 0x22, 0x33
are read and written back. -/
theorem C1_secondary_only_amended_witness :
    (envC1.readOk 0x40 0x0e = false ∧ envC1.readOk 0x41 0x0e = true ∧
      envC1.readVal 0x41 0x0e = 0x40) ∧
    fan53555_rk860_calibration envC1 =
      (IS_RK860_1_ONLY,
       [IOEvent.read 0x40 0x0e, IOEvent.read 0x41 0x0e,
        IOEvent.read 0x41 0x0b, IOEvent.read 0x41 0x0c, IOEvent.read 0x41 0x0d,
        IOEvent.write 0x41 0x0a 0x5a,
        IOEvent.write 0x40 0x0e 0x44,
        IOEvent.write 0x41 0x0b 0x11,
        IOEvent.write 0x41 0x0c 0x22,
        IOEvent.write 0x41 0x0d 0x33]) :=
  ⟨⟨rfl, rfl, rfl⟩, C1_secondary_only_amended envC1 rfl rfl rfl⟩

/-- Transport environment for the Both legacy path: every read succeeds,
P identifies as 0x00 (genuine, legacy), S as 0x40 (genuine, legacy);
P's trim bytes read 0xA1, 0xA2, 0xA3 and S's read 0xB1, 0xB2, 0xB3. -/
def envC2 : I2CEnv where
  readOk := fun _ _ => true
  readVal := fun a o =>
    if a = 0x40 ∧ o = 0x0e then 0x00
    else if a = 0x41 ∧ o = 0x0e then 0x40
    else if a = 0x40 ∧ o = 0x0b then 0xa1
    else if a = 0x40 ∧ o = 0x0c then 0xa2
    else if a = 0x40 ∧ o = 0x0d then 0xa3
    else if a = 0x41 ∧ o = 0x0b then 0xb1
    else if a = 0x41 ∧ o = 0x0c then 0xb2
    else if a = 0x41 ∧ o = 0x0d then 0xb3
    else 0

/-- C2 fails as stated: in the Both legacy path the fourth write of the
sequence puts 0x44 into P's version register (0x40, offset 0x0E) — a
second write to P's version register — not into S's version register
(0x41, offset 0x0E), which is never written.  Concretely, with both chips
genuine and legacy, the path runs yet no write to 0x41/0x0E occurs. -/
theorem C2_counterexample :
    (fan53555_rk860_calibration envC2).1 = IS_RK860_0_1 ∧
    IOEvent.write 0x41 0x0a 0x5a ∈ (fan53555_rk860_calibration envC2).2 ∧
    IOEvent.write 0x41 0x0e 0x44 ∉ (fan53555_rk860_calibration envC2).2 ∧
    IOEvent.write 0x40 0x0e 0x44 ∈ (fan53555_rk860_calibration envC2).2 := by
  decide

/-- C2 (amended): in the Both legacy calibration path (both chips
identified genuine, at least one with legacy version 0), the sequencer
reads trim bytes from both P (0x40) and S (0x41), then performs exactly
this write sequence in this order: P unlock (0x5A to 0x40/0x0A), P marker
0x84 (to 0x40/0x0E), S unlock (0x5A to 0x41/0x0A), marker 0x44 written to
P's version register (0x40/0x0E — a second write to P's version register;
S's own version register is never written), S trim rewrite
(0x41/0x0B–0x0D), marker 0x04 written to the third address's version
register (0x42/0x0E), then P trim rewrite (0x40/0x0B–0x0D). -/
theorem C2_both_amended (env : I2CEnv)
    (hP : env.readOk 0x40 0x0e = true)
    (hS : env.readOk 0x41 0x0e = true)
    (hvP : env.readVal 0x40 0x0e = 0x00 ∨ env.readVal 0x40 0x0e = 0x04)
    (hvS : env.readVal 0x41 0x0e = 0x44 ∨ env.readVal 0x41 0x0e = 0x40)
    (hleg : env.readVal 0x40 0x0e &&& 0x04 = 0 ∨ env.readVal 0x41 0x0e &&& 0x04 = 0) :
    fan53555_rk860_calibration env =
      (IS_RK860_0_1,
       [IOEvent.read 0x40 0x0e, IOEvent.read 0x41 0x0e,
        IOEvent.read 0x40 0x0b, IOEvent.read 0x40 0x0c, IOEvent.read 0x40 0x0d,
        IOEvent.read 0x41 0x0b, IOEvent.read 0x41 0x0c, IOEvent.read 0x41 0x0d,
        IOEvent.write 0x40 0x0a 0x5a,
        IOEvent.write 0x40 0x0e 0x84,
        IOEvent.write 0x41 0x0a 0x5a,
        IOEvent.write 0x40 0x0e 0x44,
        IOEvent.write 0x41 0x0b (env.readVal 0x41 0x0b),
        IOEvent.write 0x41 0x0c (env.readVal 0x41 0x0c),
        IOEvent.write 0x41 0x0d (env.readVal 0x41 0x0d),
        IOEvent.write 0x42 0x0e 0x04,
        IOEvent.write 0x40 0x0b (env.readVal 0x40 0x0b),
        IOEvent.write 0x40 0x0c (env.readVal 0x40 0x0c),
        IOEvent.write 0x40 0x0d (env.readVal 0x40 0x0d)]) := by
  have hA0 : (0x00 : Nat) &&& 0x04 = 0 := rfl
  have hA4 : (0x04 : Nat) &&& 0x04 = 4 := rfl
  have hA40 : (0x40 : Nat) &&& 0x04 = 0 := rfl
  have hA44 : (0x44 : Nat) &&& 0x04 = 4 := rfl
  rcases hvP with h0 | h0 <;> rcases hvS with h1 | h1
  · have hcls : rk860_classify env = (IS_RK860_0_1, 0, 4, 0) := by
      simp [rk860_classify, hP, hS, h0, h1, hA0, hA44, IS_RK860_0_1, IS_RK860_0_ONLY]
    simp [fan53555_rk860_calibration, hcls, rk860_both_body,
      IS_RK860_0_1, IS_RK860_0_ONLY, IS_RK860_1_ONLY]
  · have hcls : rk860_classify env = (IS_RK860_0_1, 0, 0, 0) := by
      simp [rk860_classify, hP, hS, h0, h1, hA0, hA40, IS_RK860_0_1, IS_RK860_0_ONLY]
    simp [fan53555_rk860_calibration, hcls, rk860_both_body,
      IS_RK860_0_1, IS_RK860_0_ONLY, IS_RK860_1_ONLY]
  · rw [h0, h1] at hleg
    exact absurd hleg (by decide)
  · have hcls : rk860_classify env = (IS_RK860_0_1, 4, 0, 0) := by
      simp [rk860_classify, hP, hS, h0, h1, hA4, hA40, IS_RK860_0_1, IS_RK860_0_ONLY]
    simp [fan53555_rk860_calibration, hcls, rk860_both_body,
      IS_RK860_0_1, IS_RK860_0_ONLY, IS_RK860_1_ONLY]

/-- Witness for C2 (amended) at `envC2`: P trims 0xA1–0xA3, S trims
0xB1–0xB3. -/
theorem C2_both_amended_witness :
    (envC2.readOk 0x40 0x0e = true ∧ envC2.readOk 0x41 0x0e = true ∧
      (envC2.readVal 0x40 0x0e = 0x00 ∨ envC2.readVal 0x40 0x0e = 0x04) ∧
      (envC2.readVal 0x41 0x0e = 0x44 ∨ envC2.readVal 0x41 0x0e = 0x40) ∧
      (envC2.readVal 0x40 0x0e &&& 0x04 = 0 ∨ envC2.readVal 0x41 0x0e &&& 0x04 = 0)) ∧
    fan53555_rk860_calibration envC2 =
      (IS_RK860_0_1,
       [IOEvent.read 0x40 0x0e, IOEvent.read 0x41 0x0e,
        IOEvent.read 0x40 0x0b, IOEvent.read 0x40 0x0c, IOEvent.read 0x40 0x0d,
        IOEvent.read 0x41 0x0b, IOEvent.read 0x41 0x0c, IOEvent.read 0x41 0x0d,
        IOEvent.write 0x40 0x0a 0x5a,
        IOEvent.write 0x40 0x0e 0x84,
        IOEvent.write 0x41 0x0a 0x5a,
        IOEvent.write 0x40 0x0e 0x44,
        IOEvent.write 0x41 0x0b 0xb1,
        IOEvent.write 0x41 0x0c 0xb2,
        IOEvent.write 0x41 0x0d 0xb3,
        IOEvent.write 0x42 0x0e 0x04,
        IOEvent.write 0x40 0x0b 0xa1,
        IOEvent.write 0x40 0x0c 0xa2,
        IOEvent.write 0x40 0x0d 0xa3]) :=
  ⟨⟨rfl, rfl, Or.inl rfl, Or.inr rfl, Or.inl rfl⟩,
    C2_both_amended envC2 rfl rfl (Or.inl rfl) (Or.inr rfl) (Or.inl rfl)⟩

/-- C6: the probe return value is a function of the two identification
reads and the variant resolution only — swapping the whole calibration
transport environment never changes it — and it fails exactly when the
ID1 read fails (its error code returned unchanged), the ID2 read fails
(likewise), or the resolver finds no entry (then `-ENODATA`); in every
other situation, including every calibration anomaly, probe returns 0. -/
theorem C6_probe_isolation (pm : Nat → Int) (dd : Nat) (i2c i2cAlt : I2CEnv) :
    (fan53555_probe ⟨pm, i2c, dd⟩).1 = (fan53555_probe ⟨pm, i2cAlt, dd⟩).1 ∧
    (fan53555_probe ⟨pm, i2c, dd⟩).1 =
      (if pm FAN53555_ID1 < 0 then pm FAN53555_ID1
       else if pm FAN53555_ID2 < 0 then pm FAN53555_ID2
       else if fan53555_voltages_setup dd ((pm FAN53555_ID1).toNat &&& 0xf)
                ((pm FAN53555_ID2).toNat &&& 0xf) = none then -ENODATA
       else 0) ∧
    ((fan53555_probe ⟨pm, i2c, dd⟩).1 = 0 ↔
      ¬ pm FAN53555_ID1 < 0 ∧ ¬ pm FAN53555_ID2 < 0 ∧
        fan53555_voltages_setup dd ((pm FAN53555_ID1).toNat &&& 0xf)
          ((pm FAN53555_ID2).toNat &&& 0xf) ≠ none) := by
  unfold fan53555_probe
  by_cases h1 : pm FAN53555_ID1 < 0
  · simp [h1]
    omega
  · by_cases h2 : pm FAN53555_ID2 < 0
    · simp [h1, h2]
      omega
    · rcases hr : fan53555_voltages_setup dd ((pm FAN53555_ID1).toNat &&& 0xf)
          ((pm FAN53555_ID2).toNat &&& 0xf) with _ | v
      · simp [h1, h2, hr, ENODATA]
      · by_cases h3 : dd = FAN53555_VENDOR_SILERGY
        · subst h3
          simp [h1, h2, hr]
        · simp [h1, h2, hr, h3]
